import Mathlib

/-!
Shallow embedding of the message-rewrite backend (AI Gateway, cache store,
analysis orchestrator, scam-pattern store, validation and error taxonomy),
translated from the TypeScript sources, together with theorems checking the
specification's claims about them.

Conventions used throughout:
* JavaScript values appearing in dynamically-typed positions are modelled by
  the inductive `JSVal` below, with JavaScript truthiness semantics.
* Timestamps (`Date.now()`) are natural numbers counting milliseconds.
* SHA-256 digests are modelled by their (normalized) input strings: the hash
  is a deterministic function of its input, and every claim proved here uses
  only the direction "equal inputs give equal digests", which the model
  preserves.  No claim needs collision-freeness of SHA-256.
* Fallible JavaScript calls (`await` points that may reject) are modelled by
  `Except` values supplied as explicit outcome parameters.
-/

namespace Rewrite

/-- A JavaScript/JSON value, as produced by `JSON.parse` on the model
response.  Numbers are modelled as integers (the claims only concern
integral counts). -/
inductive JSVal where
  | undef
  | jnull
  | jbool (b : Bool)
  | jnum (n : Int)
  | jstr (s : String)
  | jarr (xs : List JSVal)
  | jobj (fields : List (String × JSVal))

/-- JavaScript truthiness of a value (`!v` in the source is `!v.truthy`). -/
def JSVal.truthy : JSVal → Bool
  | .undef => false
  | .jnull => false
  | .jbool b => b
  | .jnum n => n != 0
  | .jstr s => s != ""
  | .jarr _ => true
  | .jobj _ => true

/-- Property access `v[k]`: `undefined` when absent or not an object. -/
def JSVal.getField : JSVal → String → JSVal
  | .jobj fields, k => go fields k
  | _, _ => .undef
where go : List (String × JSVal) → String → JSVal
  | [], _ => .undef
  | (k', v) :: rest, k => if k' = k then v else go rest k

/-- Property assignment `v[k] = x` on an object (replace first binding, else
append, as a JavaScript object property write behaves observably). -/
def JSVal.setField : JSVal → String → JSVal → JSVal
  | .jobj fields, k, x => .jobj (go fields k x)
  | v, _, _ => v
where go : List (String × JSVal) → String → JSVal → List (String × JSVal)
  | [], k, x => [(k, x)]
  | (k', v) :: rest, k, x =>
      if k' = k then (k, x) :: rest else (k', v) :: go rest k x

/-- JavaScript `Array.isArray(v)`. -/
def JSVal.isArray : JSVal → Bool
  | .jarr _ => true
  | _ => false

/-- JavaScript `typeof v === 'number'`. -/
def JSVal.isNumber : JSVal → Bool
  | .jnum _ => true
  | _ => false

/-- The `.length` of an array value (`0` when not an array; only ever applied to
arrays below). -/
def JSVal.arrLength : JSVal → Nat
  | .jarr xs => xs.length
  | _ => 0

/-! ### AI Gateway: response parsing (`GeminiService.parseGeminiResponse`)

Embeds the field-validation part of `parseGeminiResponse`
(src/backend/src/services/geminiService.ts, lines 183-207), starting from
the value returned by `JSON.parse` on the extracted `{...}` block. -/

/-- Embeds `GeminiService.parseGeminiResponse`, from the parsed JSON object onward:
requires truthy `original_message` and `safe_version`, an array
`differences`, a truthy `tone_comparison` with truthy `scam` and `official`;
if `red_flags_fixed` is not a number it is overwritten with
`differences.length`.  Errors are the thrown messages. -/
def parseGeminiResponse (payload : JSVal) : Except String JSVal :=
  if !(payload.getField "original_message").truthy
      || !(payload.getField "safe_version").truthy then
    .error "Missing required fields in Gemini response"
  else if !(payload.getField "differences").isArray then
    .error "Differences must be an array"
  else if !(payload.getField "tone_comparison").truthy
      || !((payload.getField "tone_comparison").getField "scam").truthy
      || !((payload.getField "tone_comparison").getField "official").truthy then
    .error "Invalid tone comparison in response"
  else if !(payload.getField "red_flags_fixed").isNumber then
    .ok (payload.setField "red_flags_fixed"
          (.jnum ((payload.getField "differences").arrLength : Int)))
  else
    .ok payload

/-! ### Character-level string primitives

`toLowerCase`/`trim` are modelled on the character list directly (the
library's position-based `String` loops do not reduce inside the kernel, so
the claims would not be checkable on concrete inputs otherwise).  They agree
with the JavaScript operations on the ASCII inputs involved here. -/

/-- JavaScript `s.toLowerCase()` (ASCII case folding per character). -/
def jsToLower (s : String) : String :=
  String.mk (s.data.map Char.toLower)

/-- Drop leading whitespace characters. -/
def dropLeadingWhitespace : List Char → List Char
  | [] => []
  | c :: cs => if c.isWhitespace then dropLeadingWhitespace cs else c :: cs

/-- JavaScript `s.trim()`: strip whitespace from both ends. -/
def jsTrim (s : String) : String :=
  String.mk ((dropLeadingWhitespace (dropLeadingWhitespace s.data).reverse).reverse)

/-! ### Substring search (JavaScript `String.prototype.includes`) -/

/-- Whether `pat` is an initial segment of `text` (character lists). -/
def charsStartWith : List Char → List Char → Bool
  | [], _ => true
  | _ :: _, [] => false
  | p :: ps, c :: cs => p = c && charsStartWith ps cs

/-- Whether `pat` occurs contiguously inside `text` (character lists). -/
def charsHaveSub (pat : List Char) : List Char → Bool
  | [] => pat.isEmpty
  | c :: cs => charsStartWith pat (c :: cs) || charsHaveSub pat cs

/-- JavaScript `s.includes(pat)`. -/
def jsIncludes (s pat : String) : Bool :=
  charsHaveSub pat.data s.data

/-! ### Orchestrator heuristics (`CommunicationController`) -/

/-- Embeds `CommunicationController.categorizeMessage`: keyword heuristics applied
to the lower-cased message, first match wins. -/
def categorizeMessage (message : String) : String :=
  let lowerMessage := jsToLower message
  if jsIncludes lowerMessage "click" || jsIncludes lowerMessage "http" then
    "fake_links"
  else if jsIncludes lowerMessage "urgent" || jsIncludes lowerMessage "immediately" then
    "urgent_payment"
  else if jsIncludes lowerMessage "password" || jsIncludes lowerMessage "pin" then
    "personal_info"
  else if jsIncludes lowerMessage "bank" || jsIncludes lowerMessage "account" then
    "fake_authority"
  else if jsIncludes lowerMessage "free" || jsIncludes lowerMessage "win" then
    "too_good_to_be_true"
  else
    "other"

/-- Embeds `CommunicationController.assessSeverity`: severity band from the red-flag
count. -/
def assessSeverity (redFlags : Int) : String :=
  if redFlags ≥ 7 then "critical"
  else if redFlags ≥ 5 then "high"
  else if redFlags ≥ 3 then "medium"
  else "low"

/-! ### Cache Store (`CacheService`, src/unnamed/part_012)

The Redis-backed cache is modelled by a `Backing` value: `unavailable` when
`!this.isConnected || !this.client`, `failing` when the underlying client
call rejects (the source catches the rejection and degrades), and `store`
for a reachable key-value store of typed `CacheEntry` records.  A stored
entry whose raw bytes fail `JSON.parse` is likewise covered by `failing`,
since the source's `catch` turns it into the same degraded result. -/

/-- Embeds `CacheEntry<T>` (src/unnamed/part_011): payload, write timestamp in
epoch-ms, and TTL in seconds. -/
structure CacheEntry (α : Type) where
  data : α
  timestamp : Nat
  ttl : Nat

/-- State of the remote cache as seen by one `CacheService` call. -/
inductive Backing (α : Type) where
  | unavailable
  | failing
  | store (entries : List (String × CacheEntry α))

/-- First binding for `k` in an association list of cache entries. -/
def lookupKey (k : String) : List (String × CacheEntry α) → Option (CacheEntry α)
  | [] => none
  | (k', e) :: rest => if k' = k then some e else lookupKey k rest

/-- Remove every binding for `k` (`client.del(key)`). -/
def eraseKey (k : String) : List (String × CacheEntry α) → List (String × CacheEntry α)
  | [] => []
  | (k', e) :: rest =>
      if k' = k then eraseKey k rest else (k', e) :: eraseKey k rest

/-- Overwrite the binding for `k`, appending when absent
(`client.setEx(key, ttl, ...)`). -/
def writeKey (k : String) (e : CacheEntry α) :
    List (String × CacheEntry α) → List (String × CacheEntry α)
  | [] => [(k, e)]
  | (k', e') :: rest =>
      if k' = k then (k, e) :: rest else (k', e') :: writeKey k e rest

/-- Embeds `CacheService.get<T>(key)`: `null` when disconnected or on any client
error; an entry whose age exceeds its stored TTL (`now - timestamp >
ttl*1000`) is deleted and reported as `null`; otherwise the stored payload
is returned.  The second component is the backing after the call. -/
def cacheGet (b : Backing α) (key : String) (now : Nat) :
    Option α × Backing α :=
  match b with
  | .unavailable => (none, .unavailable)
  | .failing => (none, .failing)
  | .store entries =>
      match lookupKey key entries with
      | none => (none, .store entries)
      | some e =>
          if now - e.timestamp > e.ttl * 1000 then
            (none, .store (eraseKey key entries))
          else
            (some e.data, .store entries)

/-- Embeds `CacheService.set<T>(key, data, ttl)`: `false` (no write) when
disconnected or on any client error, else stores `{data, timestamp: now,
ttl}` and returns `true`. -/
def cacheSet (b : Backing α) (key : String) (data : α) (ttl now : Nat) :
    Backing α × Bool :=
  match b with
  | .unavailable => (.unavailable, false)
  | .failing => (.failing, false)
  | .store entries =>
      (.store (writeKey key ⟨data, now, ttl⟩ entries), true)

/-- Embeds `CacheService.getRewriteKey(message, region)`, which hashes
`message + ":" + region` with SHA-256 and prefixes `rewrite:`; the digest is
modelled by its input (see the header note on hashing). -/
def getRewriteKey (message region : String) : String :=
  "rewrite:" ++ message ++ ":" ++ region

/-! ### Analysis Orchestrator (`CommunicationController.rewriteMessage`,
src/unnamed/part_011, lines 227-305)

The controller body is one `try { ... } catch (error) { next(error) }`.
The outcomes of the fallible awaited calls other than the cache (which never
rejects, see `cacheGet`/`cacheSet`) are supplied by a `RewriteEnv`. -/

/-- One entry of the model's `differences` array. -/
structure Difference where
  aspect : String
  scam : String
  official : String
  status : String
deriving Repr, DecidableEq

/-- Embeds `RewriteResponse['data']`: the analysis result produced by
`geminiService.rewriteMessage`. -/
structure AnalysisData where
  original_message : String
  safe_version : String
  differences : List Difference
  red_flags_fixed : Int
  tone_scam : String
  tone_official : String
  key_learning : String
deriving Repr, DecidableEq

/-- Outcomes of the fallible awaited calls in one controller invocation:
`geminiService.rewriteMessage`, `historyRecord.save()`,
`req.user.incrementUsage()`, and the database side of
`ScamPattern.findOrCreatePattern`. -/
structure RewriteEnv where
  aiResult : Except String AnalysisData
  saveResult : Except String Unit
  incrementResult : Except String Unit
  patternResult : Except String Unit

/-- What the controller does with the response: send the success envelope
(`sendSuccessResponse(res, {...data, cached})`) or pass the error to
`next(error)`. -/
inductive CtrlOutcome where
  | success (d : AnalysisData) (cached : Bool)
  | errorPassed (e : String)
deriving Repr, DecidableEq

/-- Embeds `CommunicationController.rewriteMessage`: cache lookup, on hit optional
usage increment then the cached data with `cached: true`; on miss the AI
call, caching of the result (outcome ignored), history save, optional usage
increment, pattern upsert, then the AI data with `cached: false`.  A
rejection at any awaited step lands in the shared `catch` and is passed to
`next`.  Returns the outcome, the cache backing after the call, and whether
`geminiService.rewriteMessage` was invoked. -/
def ctrlRewriteMessage (env : RewriteEnv) (b : Backing AnalysisData)
    (message region : String) (hasUser : Bool) (now : Nat) :
    CtrlOutcome × Backing AnalysisData × Bool :=
  let cacheKey := getRewriteKey message region
  match cacheGet b cacheKey now with
  | (some cachedResult, b1) =>
      if hasUser then
        match env.incrementResult with
        | .error e => (.errorPassed e, b1, false)
        | .ok _ => (.success cachedResult true, b1, false)
      else
        (.success cachedResult true, b1, false)
  | (none, b1) =>
      match env.aiResult with
      | .error e => (.errorPassed e, b1, true)
      | .ok aiResult =>
          let b2 := (cacheSet b1 cacheKey aiResult 300 now).1
          match env.saveResult with
          | .error e => (.errorPassed e, b2, true)
          | .ok _ =>
              let incr := if hasUser then env.incrementResult else .ok ()
              match incr with
              | .error e => (.errorPassed e, b2, true)
              | .ok _ =>
                  let _category := categorizeMessage message
                  let _severity := assessSeverity aiResult.red_flags_fixed
                  match env.patternResult with
                  | .error e => (.errorPassed e, b2, true)
                  | .ok _ => (.success aiResult false, b2, true)

/-! ### ScamPattern store (src/backend/src/models/ScamPattern.ts)

The MongoDB collection is modelled as a list of records; `findByHash` is a
scan for the unique `pattern_hash`.  Each mutating schema method takes the
`new Date()` timestamp of its call as an explicit `now`. -/

/-- A persisted `ScamPattern` document (fields relevant to the claims). -/
structure PatternRec where
  pattern_hash : String
  category : String
  frequency : Nat
  examples : List String
  severity : String
  created_at : Nat
  last_seen : Nat
  is_active : Bool
deriving Repr, DecidableEq

/-- Embeds `ScamPattern.generatePatternHash(text)`: SHA-256 of
`text.toLowerCase().trim()`; the digest is modelled by the normalized text
itself (see the header note on hashing). -/
def generatePatternHash (text : String) : String :=
  jsTrim (jsToLower text)

/-- Embeds `ScamPattern.findByHash(patternHash)` over the collection. -/
def findByHash (patternHash : String) : List PatternRec → Option PatternRec
  | [] => none
  | p :: rest => if p.pattern_hash = patternHash then some p else findByHash patternHash rest

/-- Persist an updated document: replace the record carrying its hash. -/
def saveUpdated (p : PatternRec) : List PatternRec → List PatternRec
  | [] => []
  | q :: rest =>
      if q.pattern_hash = p.pattern_hash then p :: rest else q :: saveUpdated p rest

/-- Embeds `ScamPatternSchema.methods.incrementFrequency`: bump `frequency`, touch
`last_seen`. -/
def incrementFrequency (p : PatternRec) (now : Nat) : PatternRec :=
  { p with frequency := p.frequency + 1, last_seen := now }

/-- Embeds `ScamPatternSchema.methods.addExample`: append the example and touch
`last_seen` only when it is not already present and fewer than 10 examples
are stored; otherwise save the document unchanged. -/
def addExample (p : PatternRec) (ex : String) (now : Nat) : PatternRec :=
  if ¬ ex ∈ p.examples ∧ p.examples.length < 10 then
    { p with examples := p.examples ++ [ex], last_seen := now }
  else
    p

/-- Embeds `ScamPatternSchema.methods.updateSeverity`. -/
def updateSeverity (p : PatternRec) (severity : String) : PatternRec :=
  { p with severity := severity }

/-- Embeds `ScamPatternSchema.methods.deactivate`. -/
def deactivate (p : PatternRec) : PatternRec :=
  { p with is_active := false }

/-- Embeds `ScamPatternSchema.methods.activate`. -/
def activatePattern (p : PatternRec) : PatternRec :=
  { p with is_active := true }

/-- The fresh document `findOrCreatePattern` inserts on a lookup miss:
`frequency = 1`, the raw message as sole example, schema timestamp defaults
for `created_at`/`last_seen`, and `is_active = true`. -/
def newPattern (message category severity : String) (now : Nat) : PatternRec :=
  { pattern_hash := generatePatternHash message, category := category
    frequency := 1, examples := [message], severity := severity
    created_at := now, last_seen := now, is_active := true }

/-- Embeds `ScamPattern.findOrCreatePattern(message, category, severity)`: look the
message's hash up; on a hit increment its frequency (touching `last_seen`),
on a miss insert a fresh document with `frequency = 1` and the raw message
as sole example.  Returns the document and the updated collection. -/
def findOrCreatePattern (db : List PatternRec)
    (message category severity : String) (now : Nat) :
    PatternRec × List PatternRec :=
  match findByHash (generatePatternHash message) db with
  | some pattern =>
      let updated := incrementFrequency pattern now
      (updated, saveUpdated updated db)
  | none =>
      (newPattern message category severity now,
        db ++ [newPattern message category severity now])

/-- One pattern-store operation, for stating store-wide invariants over
arbitrary operation sequences. -/
inductive PatternOp where
  | upsert (message category severity : String) (now : Nat)
  | addEx (patternHash ex : String) (now : Nat)
  | setSeverity (patternHash severity : String)
  | deactiv (patternHash : String)
  | activ (patternHash : String)

/-- Apply one operation to the collection (instance-method operations act on
the document found by hash, if any). -/
def applyPatternOp (db : List PatternRec) : PatternOp → List PatternRec
  | .upsert message category severity now =>
      (findOrCreatePattern db message category severity now).2
  | .addEx patternHash ex now =>
      match findByHash patternHash db with
      | some p => saveUpdated (addExample p ex now) db
      | none => db
  | .setSeverity patternHash severity =>
      match findByHash patternHash db with
      | some p => saveUpdated (updateSeverity p severity) db
      | none => db
  | .deactiv patternHash =>
      match findByHash patternHash db with
      | some p => saveUpdated (deactivate p) db
      | none => db
  | .activ patternHash =>
      match findByHash patternHash db with
      | some p => saveUpdated (activatePattern p) db
      | none => db

/-- Apply a sequence of operations, oldest first. -/
def applyPatternOps (db : List PatternRec) : List PatternOp → List PatternRec
  | [] => db
  | op :: ops => applyPatternOps (applyPatternOp db op) ops

/-- The examples invariant claimed for every stored pattern: no duplicate
entries and at most 10 of them. -/
def examplesOK (p : PatternRec) : Prop :=
  p.examples.Nodup ∧ p.examples.length ≤ 10

/-- Store-wide examples invariant. -/
def storeOK (db : List PatternRec) : Prop :=
  ∀ p ∈ db, examplesOK p

/-! ### Error taxonomy (src/backend/src/middleware/errorHandler.ts)

A thrown JavaScript error as seen by the `errorHandler` middleware.  The
custom classes in errorHandler.ts (`APIError`, `ValidationError`,
`RateLimitError`, ...) assign `statusCode`/`code` fields but none of them
assigns `this.name`, so at runtime their `name` is the inherited
`"Error"`. -/

structure JSError where
  name : String
  message : String
  code : Option String := none
  statusCode : Option Nat := none
  mongoCode : Option Int := none
deriving Repr, DecidableEq

/-- The JSON error envelope produced by `errorHandler` (`res.status(...)`
with `{code, message, timestamp}`; no other field is ever attached on this
path, so `retryAfter` is always `none` here). -/
structure ErrResponse where
  statusCode : Nat
  code : String
  message : String
  retryAfter : Option Int
deriving Repr, DecidableEq

/-- The `errorHandler` middleware's mapping from a thrown error to the
response envelope: the if/else chain on `error.name` and
`error.message.includes(...)`, in source order, defaulting to
500/`INTERNAL_ERROR`.  It reads only `name`, `message` and the Mongo
duplicate-key code — the `code`/`statusCode` fields carried by the custom
error classes are ignored. -/
def errorHandler (error : JSError) : ErrResponse :=
  if error.name = "ValidationError" then
    { statusCode := 400, code := "VALIDATION_ERROR", message := "Validation error", retryAfter := none }
  else if error.name = "CastError" then
    { statusCode := 400, code := "INVALID_FORMAT", message := "Invalid data format", retryAfter := none }
  else if error.name = "MongoError" ∧ error.mongoCode = some 11000 then
    { statusCode := 409, code := "DUPLICATE_ENTRY", message := "Duplicate entry", retryAfter := none }
  else if error.name = "JsonWebTokenError" then
    { statusCode := 401, code := "INVALID_TOKEN", message := "Invalid token", retryAfter := none }
  else if error.name = "TokenExpiredError" then
    { statusCode := 401, code := "TOKEN_EXPIRED", message := "Token expired", retryAfter := none }
  else if jsIncludes error.message "rate limit" then
    { statusCode := 429, code := "RATE_LIMIT_EXCEEDED", message := error.message, retryAfter := none }
  else if jsIncludes error.message "Gemini API" then
    { statusCode := 502, code := "AI_SERVICE_ERROR", message := "AI service temporarily unavailable", retryAfter := none }
  else if jsIncludes error.message "Cache" then
    { statusCode := 503, code := "CACHE_SERVICE_ERROR", message := "Cache service unavailable", retryAfter := none }
  else if jsIncludes error.message "Database" then
    { statusCode := 503, code := "DATABASE_SERVICE_ERROR", message := "Database service unavailable", retryAfter := none }
  else
    { statusCode := 500, code := "INTERNAL_ERROR", message := "Internal server error", retryAfter := none }

/-- The error thrown by `handleValidationErrors`
(src/backend/src/middleware/validation.ts): `new ValidationError('Validation
failed', 400, 'VALIDATION_ERROR', errorMessages)` against the constructor
`(field, message, value?)`, so the `message` argument is the number `400`
(coerced to the string `"400"` by `Error`), `code`/`statusCode` come from
the `APIError` super call, and the runtime `name` stays `"Error"`. -/
def validationFailedError : JSError :=
  { name := "Error", message := "400",
    code := some "VALIDATION_ERROR", statusCode := some 400 }

/-! ### AI Gateway error mapping and input validation
(src/backend/src/services/geminiService.ts) -/

/-- How an axios call to the Gemini endpoint failed: an HTTP error response
(`error.response`, with the upstream `errorData.error?.message`), a request
that got no response (`error.request`), or another error. -/
inductive AxiosFailure where
  | httpResponse (status : Nat) (errMsg : Option String)
  | requestNoResponse
  | other (msg : String)

/-- Embeds the catch block of `GeminiService.callGeminiAPI`: the switch on the upstream
HTTP status (plain `new Error(...)` objects, so `name = "Error"` and no
`code` field; no retry-after hint is read from the upstream response
anywhere in this service). -/
def callGeminiAPIError (failure : AxiosFailure) : JSError :=
  match failure with
  | .httpResponse status errMsg =>
      if status = 400 then
        { name := "Error", message := "Invalid request to Gemini API: " ++ errMsg.getD "Bad Request" }
      else if status = 401 then
        { name := "Error", message := "Invalid Gemini API key" }
      else if status = 403 then
        { name := "Error", message := "Gemini API access forbidden" }
      else if status = 429 then
        { name := "Error", message := "Gemini API rate limit exceeded. Please try again later." }
      else if status = 500 then
        { name := "Error", message := "Gemini API internal server error" }
      else
        { name := "Error", message := "Gemini API error: " ++ toString status ++ " - " ++ errMsg.getD "Unknown error" }
  | .requestNoResponse =>
      { name := "Error", message := "Network error: Unable to reach Gemini API" }
  | .other msg =>
      { name := "Error", message := "Gemini API error: " ++ msg }

/-- The input-validation prologue of `GeminiService.rewriteMessage` (lines
217-231): empty string (falsy), over-long, or blank-after-trim message each
throw a plain `Error` before `callGeminiAPI` is reached. -/
def geminiValidationError (maxLen : Nat) (message : String) : Option JSError :=
  if message = "" then
    some { name := "Error", message := "Message is required and must be a string" }
  else if message.length > maxLen then
    some { name := "Error", message := "Message too long. Maximum " ++ toString maxLen ++ " characters allowed." }
  else if jsTrim message = "" then
    some { name := "Error", message := "Message cannot be empty" }
  else
    none

/-! ### Request validation pipeline (route `POST /api/rewrite`)

`validateRewriteRequest` runs `body('message').isString().isLength({min: 1,
max}).trim().escape()`: the length check applies to the raw message, then
the sanitizers rewrite `req.body.message` for the controller. -/

/-- The express-validator `isLength({min: 1, max: maxLen})` check on the raw
message. -/
def middlewarePasses (maxLen : Nat) (message : String) : Bool :=
  decide (1 ≤ message.length) && decide (message.length ≤ maxLen)

/-- validator.js `escape` on one character: `&`, double quote, single
quote, `<`, `>`, `/`, backslash and backtick become HTML entities
(characters named by code point to keep the source faithful). -/
def escapeChar (c : Char) : String :=
  if c.toNat = 38 then "&amp;"
  else if c.toNat = 34 then "&quot;"
  else if c.toNat = 39 then "&#x27;"
  else if c.toNat = 60 then "&lt;"
  else if c.toNat = 62 then "&gt;"
  else if c.toNat = 47 then "&#x2F;"
  else if c.toNat = 92 then "&#x5C;"
  else if c.toNat = 96 then "&#96;"
  else String.mk [c]

/-- validator.js `escape` over a whole string. -/
def expressEscape (s : String) : String :=
  String.join (s.data.map escapeChar)

/-- What the `POST /api/rewrite` pipeline does with a request before any
network traffic to the AI endpoint. -/
inductive PipeOutcome where
  | errorResponse (r : ErrResponse)
  | cachedResponse (d : AnalysisData)
  | proceeded (sanitizedMessage : String)
deriving Repr, DecidableEq

/-- The `POST /api/rewrite` path of an unauthenticated request, up to the
decision whether `callGeminiAPI` issues a network call: middleware
validation (failure throws `validationFailedError` into `errorHandler`),
sanitization (`trim` then `escape`), the controller's cache lookup, then
`GeminiService.rewriteMessage`'s own validation (a throw is caught by the
controller and passed via `next` to `errorHandler`).  The Boolean is
whether `callGeminiAPI` is invoked; what happens after a successful
validation is covered by `ctrlRewriteMessage`. -/
def rewritePipeline (maxLen : Nat) (b : Backing AnalysisData)
    (message region : String) (now : Nat) : PipeOutcome × Bool :=
  if !(middlewarePasses maxLen message) then
    (.errorResponse (errorHandler validationFailedError), false)
  else
    let sanitized := expressEscape (jsTrim message)
    match cacheGet b (getRewriteKey sanitized region) now with
    | (some d, _) => (.cachedResponse d, false)
    | (none, _) =>
        match geminiValidationError maxLen sanitized with
        | some e => (.errorResponse (errorHandler e), false)
        | none => (.proceeded sanitized, true)

/-! ### Concrete scenario values -/

/-- A sample analysis result as produced by the AI Gateway. -/
def sampleData : AnalysisData :=
  { original_message := "Your UPI payment failed! Click here"
    safe_version := "Dear customer, please visit your branch."
    differences := [{ aspect := "Links", scam := "Contains suspicious link",
                      official := "No external links", status := "Fixed" }]
    red_flags_fixed := 4
    tone_scam := "Urgent, Fearful, Demanding"
    tone_official := "Professional, Calm, Helpful"
    key_learning := "Banks never send payment links." }

/-- Outcomes where the AI call succeeds but the history write rejects. -/
def saveFailEnv : RewriteEnv :=
  { aiResult := .ok sampleData
    saveResult := .error "history write failed"
    incrementResult := .ok ()
    patternResult := .ok () }

/-- Outcomes where every awaited call succeeds. -/
def allOkEnv : RewriteEnv :=
  { aiResult := .ok sampleData
    saveResult := .ok ()
    incrementResult := .ok ()
    patternResult := .ok () }

/-- An upstream payload that passes every check of `parseGeminiResponse`
while carrying `red_flags_fixed = 11`. -/
def overRangePayload : JSVal :=
  .jobj [("original_message", .jstr "Your account is locked, click now"),
         ("safe_version", .jstr "Please contact your branch."),
         ("differences", .jarr [.jobj [("aspect", .jstr "Links")]]),
         ("tone_comparison", .jobj [("scam", .jstr "Urgent"), ("official", .jstr "Calm")]),
         ("red_flags_fixed", .jnum 11),
         ("key_learning", .jstr "Check the sender.")]

/-- An upstream payload whose `original_message` is present but empty. -/
def emptyFieldPayload : JSVal :=
  .jobj [("original_message", .jstr ""),
         ("safe_version", .jstr "Please contact your branch."),
         ("differences", .jarr []),
         ("tone_comparison", .jobj [("scam", .jstr "Urgent"), ("official", .jstr "Calm")])]

/-- A message one character over the default 1000-character limit. -/
def longMessage : String :=
  String.mk (List.replicate 1001 (Char.ofNat 97))

/-- The example scam message of the specification's test scenario. -/
def upiExample : String :=
  "Your UPI payment failed! Click here to get refund: http://refund-upi.com immediately"

/-- The catch-all envelope `errorHandler` produces when no taxonomy branch
matches: HTTP 500 with code `INTERNAL_ERROR`. -/
def internalErrorResponse : ErrResponse :=
  { statusCode := 500, code := "INTERNAL_ERROR",
    message := "Internal server error", retryAfter := none }

/-! ## Theorems -/

/-- C7: `CacheService.get` never raises: it is a total function into
`Option`; when the backing cache is unavailable (disconnected or a failing
client) it returns absent without touching the store, an entry whose age
exceeds its stored TTL is reported absent and deleted, and a valid entry's
payload is returned. -/
theorem cache_get_total_and_expiry {α : Type} (k : String) (now : Nat)
    (entries : List (String × CacheEntry α)) (e : CacheEntry α) :
    cacheGet (Backing.unavailable : Backing α) k now = (none, .unavailable) ∧
    cacheGet (Backing.failing : Backing α) k now = (none, .failing) ∧
    (lookupKey k entries = some e →
      (now - e.timestamp > e.ttl * 1000 →
        cacheGet (.store entries) k now = (none, .store (eraseKey k entries))) ∧
      (¬ now - e.timestamp > e.ttl * 1000 →
        cacheGet (.store entries) k now = (some e.data, .store entries))) ∧
    (lookupKey k entries = none →
      cacheGet (.store entries) k now = (none, .store entries)) := by
  refine ⟨rfl, rfl, ?_, ?_⟩
  · intro h
    constructor <;> intro hexp <;> simp [cacheGet, h, hexp]
  · intro h
    simp [cacheGet, h]

/-- C7 witness: the theorem evaluated on a one-entry store at an expired and
at a fresh lookup time. -/
theorem cache_get_total_and_expiry_witness :
    cacheGet (Backing.store [("k", ⟨7, 0, 300⟩)]) "k" 300001 =
      (none, .store (eraseKey "k" [("k", (⟨7, 0, 300⟩ : CacheEntry Nat))])) ∧
    cacheGet (Backing.store [("k", ⟨7, 0, 300⟩)]) "k" 300000 =
      (some 7, .store [("k", (⟨7, 0, 300⟩ : CacheEntry Nat))]) :=
  ⟨((cache_get_total_and_expiry "k" 300001 [("k", ⟨7, 0, 300⟩)] ⟨7, 0, 300⟩).2.2.1
      (by rfl)).1 (by decide),
   ((cache_get_total_and_expiry "k" 300000 [("k", ⟨7, 0, 300⟩)] ⟨7, 0, 300⟩).2.2.1
      (by rfl)).2 (by decide)⟩

/-- C8: the keyword checks run in a fixed priority order, so any message
containing "click" or "http" (lower-cased) is categorized `fake_links` even
when urgency keywords are also present; the severity bands are critical for
at least 7 red flags, high for at least 5, medium for at least 3, else low;
and the specification's example message yields `fake_links` with severity
`medium` for 4 red flags. -/
theorem categorize_priority_and_severity_bands :
    (∀ message : String,
      (jsIncludes (jsToLower message) "click" = true ∨
        jsIncludes (jsToLower message) "http" = true) →
      categorizeMessage message = "fake_links") ∧
    (∀ redFlags : Int,
      (7 ≤ redFlags → assessSeverity redFlags = "critical") ∧
      (5 ≤ redFlags → redFlags < 7 → assessSeverity redFlags = "high") ∧
      (3 ≤ redFlags → redFlags < 5 → assessSeverity redFlags = "medium") ∧
      (redFlags < 3 → assessSeverity redFlags = "low")) ∧
    categorizeMessage upiExample = "fake_links" ∧
    jsIncludes (jsToLower upiExample) "immediately" = true ∧
    assessSeverity 4 = "medium" := by
  refine ⟨?_, ?_, by decide, by decide, by decide⟩
  · intro message h
    rcases h with h | h <;> simp [categorizeMessage, h]
  · intro redFlags
    refine ⟨?_, ?_, ?_, ?_⟩ <;>
      · intros
        unfold assessSeverity
        split_ifs <;> first | rfl | omega

/-- C8 witness: the priority rule applied to a message that contains both a
link keyword and an urgency keyword, and each severity band evaluated at a
concrete count. -/
theorem categorize_priority_and_severity_bands_witness :
    categorizeMessage "urgent: click immediately" = "fake_links" ∧
    assessSeverity 8 = "critical" ∧ assessSeverity 5 = "high" ∧
    assessSeverity 4 = "medium" ∧ assessSeverity 2 = "low" :=
  ⟨categorize_priority_and_severity_bands.1 "urgent: click immediately"
      (Or.inl (by decide)),
   (categorize_priority_and_severity_bands.2.1 8).1 (by decide),
   (categorize_priority_and_severity_bands.2.1 5).2.1 (by decide) (by decide),
   (categorize_priority_and_severity_bands.2.1 4).2.2.1 (by decide) (by decide),
   (categorize_priority_and_severity_bands.2.1 2).2.2.2 (by decide)⟩

/-- A field with truthy content can only come from an object value. -/
theorem truthy_getField_isObj (v : JSVal) (k : String)
    (h : (v.getField k).truthy = true) : ∃ fields, v = .jobj fields := by
  cases v <;> first
    | exact ⟨_, rfl⟩
    | simp [JSVal.getField, JSVal.truthy] at h

/-- Reading back a just-written object property. -/
theorem getField_setField (fields : List (String × JSVal)) (k : String) (x : JSVal) :
    ((JSVal.jobj fields).setField k x).getField k = x := by
  simp only [JSVal.setField, JSVal.getField]
  induction fields with
  | nil => simp [JSVal.setField.go, JSVal.getField.go]
  | cons head rest ih =>
      obtain ⟨k', v⟩ := head
      by_cases hk : k' = k <;>
        simp [JSVal.setField.go, JSVal.getField.go, hk, ih]

/-- C10: the response parser rejects required string fields that are present
but empty: a payload whose `original_message` or `safe_version` is the empty
string fails with the missing-required-fields parse error (the empty string
is falsy). -/
theorem parse_rejects_empty_required_fields (payload : JSVal)
    (h : payload.getField "original_message" = .jstr "" ∨
         payload.getField "safe_version" = .jstr "") :
    parseGeminiResponse payload =
      .error "Missing required fields in Gemini response" := by
  unfold parseGeminiResponse
  rcases h with h | h <;> simp [h, JSVal.truthy]

/-- C10 witness: the parser applied to a concrete payload whose
`original_message` is the empty string. -/
theorem parse_rejects_empty_required_fields_witness :
    parseGeminiResponse emptyFieldPayload =
      .error "Missing required fields in Gemini response" :=
  parse_rejects_empty_required_fields emptyFieldPayload (Or.inl (by rfl))

/-- C4 counterexample: a payload carrying the numeric value 11 for
`red_flags_fixed` passes the parser unchanged, so the parsed result's
`red_flags_fixed` is a number outside the interval claimed. -/
theorem parse_red_flags_out_of_range :
    parseGeminiResponse overRangePayload = .ok overRangePayload ∧
    overRangePayload.getField "red_flags_fixed" = .jnum 11 ∧
    ¬ ((11 : Int) ≤ 10) :=
  ⟨rfl, rfl, by decide⟩

/-- C4 (amended): every successfully parsed result carries a numeric
`red_flags_fixed`, and whenever the upstream payload omits the field or
supplies a non-numeric value, the parsed value equals the length of the
`differences` array; no interval bound is enforced. -/
theorem parse_red_flags_numeric_and_substituted (payload result : JSVal)
    (h : parseGeminiResponse payload = .ok result) :
    (result.getField "red_flags_fixed").isNumber = true ∧
    ((payload.getField "red_flags_fixed").isNumber = false →
      result.getField "red_flags_fixed" =
        .jnum ((payload.getField "differences").arrLength : Int)) := by
  unfold parseGeminiResponse at h
  split at h
  · exact absurd h (by simp)
  split at h
  · exact absurd h (by simp)
  split at h
  · exact absurd h (by simp)
  split at h
  case _ hreq _ _ hnum =>
    obtain ⟨fields, rfl⟩ := truthy_getField_isObj payload "original_message"
      (by simp at hreq; exact hreq.1)
    obtain rfl : (JSVal.jobj fields).setField "red_flags_fixed"
        (.jnum ((JSVal.getField (.jobj fields) "differences").arrLength : Int)) = result :=
      by simpa using h
    rw [getField_setField]
    exact ⟨rfl, fun _ => rfl⟩
  case _ hnum =>
    obtain rfl : payload = result := by simpa using h
    simp at hnum
    exact ⟨hnum, by simp [hnum]⟩

/-- C4 witness: a payload without a `red_flags_fixed` field parses to a
result whose `red_flags_fixed` equals its number of differences. -/
theorem parse_red_flags_numeric_and_substituted_witness :
    ((emptyFieldPayload.setField "original_message" (.jstr "msg")).setField
        "red_flags_fixed" (.jnum 0)).getField "red_flags_fixed" =
      .jnum (((emptyFieldPayload.setField "original_message"
        (.jstr "msg")).getField "differences").arrLength : Int) :=
  (parse_red_flags_numeric_and_substituted
    (emptyFieldPayload.setField "original_message" (.jstr "msg"))
    ((emptyFieldPayload.setField "original_message" (.jstr "msg")).setField
      "red_flags_fixed" (.jnum 0))
    (by rfl)).2 (by rfl)

/-- C6 counterexample: the error surfaced for an upstream 429 is classified
`RATE_LIMIT_EXCEEDED`, but the response envelope built by `errorHandler`
carries no retry-after value at all — the backend never reads a retry-after
hint from the upstream response, so the claim that the surfaced error
carries a numeric retry-after value fails. -/
theorem rate_limit_429_carries_no_retry_after :
    (errorHandler (callGeminiAPIError (.httpResponse 429 (some "quota")))).code =
      "RATE_LIMIT_EXCEEDED" ∧
    (errorHandler (callGeminiAPIError (.httpResponse 429 (some "quota")))).retryAfter =
      none :=
  ⟨rfl, rfl⟩

/-- C6 (amended): whenever the AI endpoint answers HTTP 429, the error
surfaced through `callGeminiAPI`'s status switch and the `errorHandler`
middleware is classified `RATE_LIMIT_EXCEEDED` with HTTP status 429 and the
upstream rate-limit message, whatever upstream error text accompanied the
response; no retry-after value is attached on this path. -/
theorem rate_limit_429_classification (errMsg : Option String) :
    errorHandler (callGeminiAPIError (.httpResponse 429 errMsg)) =
      { statusCode := 429, code := "RATE_LIMIT_EXCEEDED",
        message := "Gemini API rate limit exceeded. Please try again later.",
        retryAfter := none } :=
  rfl

/-- C3 (code bug): for the three invalid-input classes — empty message,
whitespace-only message (empty after trimming), and over-the-limit message —
the pipeline makes no network call to the AI endpoint, but every one of
them surfaces as HTTP 500 `INTERNAL_ERROR` rather than `VALIDATION_ERROR`:
the middleware's thrown `ValidationError` reaches `errorHandler` with
runtime name `"Error"` (and its constructor arguments shifted), and the
service-level validation throws plain `Error`s whose messages match none of
the taxonomy substrings. -/
theorem invalid_message_internal_error_and_no_ai_call :
    rewritePipeline 1000 (.store []) "" "US" 0 =
      (.errorResponse internalErrorResponse, false) ∧
    rewritePipeline 1000 (.store []) "   " "US" 0 =
      (.errorResponse internalErrorResponse, false) ∧
    rewritePipeline 1000 (.store []) longMessage "US" 0 =
      (.errorResponse internalErrorResponse, false) := by
  refine ⟨rfl, rfl, ?_⟩
  have hmp : middlewarePasses 1000 longMessage = false := by
    unfold middlewarePasses longMessage
    rw [show (String.mk (List.replicate 1001 (Char.ofNat 97))).length = 1001 by
      show (List.replicate 1001 (Char.ofNat 97)).length = 1001
      rw [List.length_replicate]]
    rfl
  unfold rewritePipeline
  rw [hmp]
  rfl

/-- A collection with no record for a hash contains no record carrying it. -/
theorem findByHash_none (h : String) (db : List PatternRec)
    (hnone : findByHash h db = none) : ∀ q ∈ db, q.pattern_hash ≠ h := by
  induction db with
  | nil => intro q hq; simp at hq
  | cons r rest ih =>
      rw [findByHash] at hnone
      intro q hq
      rcases List.mem_cons.mp hq with rfl | hq
      · intro hqh
        simp [hqh] at hnone
      · split at hnone
        · exact absurd hnone (by simp)
        · exact ih hnone q hq

/-- A record found by hash is a member of the collection. -/
theorem findByHash_some_mem {h : String} {db : List PatternRec} {p : PatternRec}
    (hfind : findByHash h db = some p) : p ∈ db := by
  induction db with
  | nil => simp [findByHash] at hfind
  | cons r rest ih =>
      rw [findByHash] at hfind
      split at hfind
      · exact (Option.some_injective _ hfind) ▸ List.mem_cons_self r rest
      · exact List.mem_cons_of_mem _ (ih hfind)

/-- Looking a hash up past records that do not carry it. -/
theorem findByHash_append (h : String) (l1 l2 : List PatternRec)
    (hnone : findByHash h l1 = none) :
    findByHash h (l1 ++ l2) = findByHash h l2 := by
  induction l1 with
  | nil => rfl
  | cons r rest ih =>
      rw [findByHash] at hnone
      rw [List.cons_append, findByHash]
      split at hnone
      · exact absurd hnone (by simp)
      · next hne => rw [if_neg hne]; exact ih hnone

/-- Replacing a record leaves records with other hashes alone. -/
theorem saveUpdated_append (p : PatternRec) (l1 l2 : List PatternRec)
    (hnone : findByHash p.pattern_hash l1 = none) :
    saveUpdated p (l1 ++ l2) = l1 ++ saveUpdated p l2 := by
  induction l1 with
  | nil => rfl
  | cons r rest ih =>
      rw [findByHash] at hnone
      rw [List.cons_append, saveUpdated]
      split at hnone
      · exact absurd hnone (by simp)
      · next hne =>
          rw [if_neg hne, List.cons_append, ih hnone]

/-- Every member of a collection after `saveUpdated` is the replacement or
an original member. -/
theorem mem_saveUpdated {q p : PatternRec} {db : List PatternRec}
    (h : q ∈ saveUpdated p db) : q = p ∨ q ∈ db := by
  induction db with
  | nil => simp [saveUpdated] at h
  | cons r rest ih =>
      rw [saveUpdated] at h
      split at h
      · rcases List.mem_cons.mp h with h | h
        · exact Or.inl h
        · exact Or.inr (List.mem_cons_of_mem _ h)
      · rcases List.mem_cons.mp h with h | h
        · exact Or.inr (h ▸ List.mem_cons_self _ _)
        · rcases ih h with h | h
          · exact Or.inl h
          · exact Or.inr (List.mem_cons_of_mem _ h)

/-- Method `addExample` preserves the examples invariant: it deduplicates and caps
the list at 10 entries. -/
theorem examplesOK_addExample (p : PatternRec) (ex : String) (now : Nat)
    (h : examplesOK p) : examplesOK (addExample p ex now) := by
  unfold addExample
  split
  · next hc =>
      obtain ⟨hnd, hlen⟩ := h
      refine ⟨?_, ?_⟩
      · simp only [List.nodup_append, List.nodup_cons, List.nodup_nil,
          List.disjoint_singleton]
        exact ⟨hnd, by simp, hc.1⟩
      · simp only [List.length_append, List.length_cons, List.length_nil]
        omega
  · exact h

/-- One pattern-store operation preserves the store-wide examples
invariant. -/
theorem storeOK_applyPatternOp (db : List PatternRec) (op : PatternOp)
    (h : storeOK db) : storeOK (applyPatternOp db op) := by
  cases op with
  | upsert message category severity now =>
      intro q hq
      simp only [applyPatternOp, findOrCreatePattern] at hq
      split at hq
      · next p hfind =>
          rcases mem_saveUpdated hq with rfl | hq
          · exact h p (findByHash_some_mem hfind)
          · exact h q hq
      · rcases List.mem_append.mp hq with hq | hq
        · exact h q hq
        · obtain rfl := List.mem_singleton.mp hq
          exact ⟨List.nodup_singleton _, by simp [newPattern]⟩
  | addEx patternHash ex now =>
      intro q hq
      simp only [applyPatternOp] at hq
      split at hq
      · next p hfind =>
          rcases mem_saveUpdated hq with rfl | hq
          · exact examplesOK_addExample p ex now (h p (findByHash_some_mem hfind))
          · exact h q hq
      · exact h q hq
  | setSeverity patternHash severity =>
      intro q hq
      simp only [applyPatternOp] at hq
      split at hq
      · next p hfind =>
          rcases mem_saveUpdated hq with rfl | hq
          · exact h p (findByHash_some_mem hfind)
          · exact h q hq
      · exact h q hq
  | deactiv patternHash =>
      intro q hq
      simp only [applyPatternOp] at hq
      split at hq
      · next p hfind =>
          rcases mem_saveUpdated hq with rfl | hq
          · exact h p (findByHash_some_mem hfind)
          · exact h q hq
      · exact h q hq
  | activ patternHash =>
      intro q hq
      simp only [applyPatternOp] at hq
      split at hq
      · next p hfind =>
          rcases mem_saveUpdated hq with rfl | hq
          · exact h p (findByHash_some_mem hfind)
          · exact h q hq
      · exact h q hq

/-- Any sequence of pattern-store operations preserves the store-wide
examples invariant. -/
theorem storeOK_applyPatternOps (ops : List PatternOp) :
    ∀ db, storeOK db → storeOK (applyPatternOps db ops) := by
  induction ops with
  | nil => intro db h; exact h
  | cons op rest ih =>
      intro db h
      exact ih _ (storeOK_applyPatternOp db op h)

/-- Upsert on a lookup miss inserts the fresh document at the end. -/
theorem findOrCreatePattern_miss (db : List PatternRec)
    (m c sev : String) (t : Nat)
    (h : findByHash (generatePatternHash m) db = none) :
    findOrCreatePattern db m c sev t =
      (newPattern m c sev t, db ++ [newPattern m c sev t]) := by
  simp only [findOrCreatePattern, h]

/-- Upsert on a lookup hit increments the found document in place. -/
theorem findOrCreatePattern_hit (db : List PatternRec)
    (m c sev : String) (t : Nat) (p : PatternRec)
    (h : findByHash (generatePatternHash m) db = some p) :
    findOrCreatePattern db m c sev t =
      (incrementFrequency p t, saveUpdated (incrementFrequency p t) db) := by
  simp only [findOrCreatePattern, h]

/-- C5: upserting twice with inputs that yield the same identity hash (into
a collection not yet containing that hash) leaves the stored ScamPattern
with `frequency = 2` and `last_seen` equal to the second call's timestamp —
the returned document is exactly the one stored under the hash — and after
any sequence of pattern operations starting from an empty collection, every
stored pattern's examples list is duplicate-free with at most 10 entries. -/
theorem pattern_upsert_roundtrip_and_examples_invariant
    (db : List PatternRec) (m1 m2 c1 c2 s1 s2 : String) (t1 t2 : Nat)
    (ops : List PatternOp)
    (hh : generatePatternHash m1 = generatePatternHash m2)
    (habs : findByHash (generatePatternHash m2) db = none) :
    ((findOrCreatePattern (findOrCreatePattern db m1 c1 s1 t1).2 m2 c2 s2 t2).1.frequency = 2 ∧
      (findOrCreatePattern (findOrCreatePattern db m1 c1 s1 t1).2 m2 c2 s2 t2).1.last_seen = t2 ∧
      findByHash (generatePatternHash m2)
          (findOrCreatePattern (findOrCreatePattern db m1 c1 s1 t1).2 m2 c2 s2 t2).2 =
        some (findOrCreatePattern (findOrCreatePattern db m1 c1 s1 t1).2 m2 c2 s2 t2).1) ∧
    storeOK (applyPatternOps [] ops) := by
  have habs1 : findByHash (generatePatternHash m1) db = none := by rw [hh]; exact habs
  refine ⟨?_, storeOK_applyPatternOps ops [] (by intro q hq; simp at hq)⟩
  rw [findOrCreatePattern_miss db m1 c1 s1 t1 habs1]
  have hph : (newPattern m1 c1 s1 t1).pattern_hash = generatePatternHash m2 := hh
  have hfind : findByHash (generatePatternHash m2) (db ++ [newPattern m1 c1 s1 t1]) =
      some (newPattern m1 c1 s1 t1) := by
    rw [findByHash_append _ _ _ habs, findByHash, if_pos hph]
  rw [findOrCreatePattern_hit _ m2 c2 s2 t2 _ hfind]
  refine ⟨rfl, rfl, ?_⟩
  have hsave : saveUpdated (incrementFrequency (newPattern m1 c1 s1 t1) t2)
      (db ++ [newPattern m1 c1 s1 t1]) =
      db ++ [incrementFrequency (newPattern m1 c1 s1 t1) t2] := by
    rw [saveUpdated_append _ _ _ habs1]
    simp [saveUpdated, incrementFrequency]
  rw [hsave, findByHash_append _ _ _ habs]
  simp [findByHash, incrementFrequency, hph]

/-- C5 witness: the theorem at a concrete pair of equal-hash messages (same
text up to case and surrounding whitespace) and a concrete operation
sequence. -/
theorem pattern_upsert_roundtrip_and_examples_invariant_witness :
    ((findOrCreatePattern (findOrCreatePattern [] "Free WIN now" "too_good_to_be_true" "high" 1).2
          " free win NOW " "other" "low" 2).1.frequency = 2 ∧
      (findOrCreatePattern (findOrCreatePattern [] "Free WIN now" "too_good_to_be_true" "high" 1).2
          " free win NOW " "other" "low" 2).1.last_seen = 2 ∧
      findByHash (generatePatternHash " free win NOW ")
          (findOrCreatePattern (findOrCreatePattern [] "Free WIN now" "too_good_to_be_true" "high" 1).2
            " free win NOW " "other" "low" 2).2 =
        some (findOrCreatePattern (findOrCreatePattern [] "Free WIN now" "too_good_to_be_true" "high" 1).2
            " free win NOW " "other" "low" 2).1) ∧
    storeOK (applyPatternOps []
      [.upsert "click here" "fake_links" "medium" 3,
       .addEx (generatePatternHash "click here") "Click Here" 4]) :=
  pattern_upsert_roundtrip_and_examples_invariant []
    "Free WIN now" " free win NOW " "too_good_to_be_true" "other" "high" "low" 1 2
    [.upsert "click here" "fake_links" "medium" 3,
     .addEx (generatePatternHash "click here") "Click Here" 4]
    (by decide) (by rfl)

/-- C9: the ScamPattern identity hash is computed from the message alone
after lowercasing and trimming — the category never enters it — so two
upserts whose messages agree up to letter case and surrounding whitespace
resolve to the same pattern even with different categories: the second
upsert increments the frequency of the pattern created by the first (which
keeps its original category) and the collection still holds one pattern. -/
theorem pattern_hash_ignores_category_case_whitespace
    (m1 m2 c1 c2 s1 s2 : String) (t1 t2 : Nat)
    (hnorm : jsTrim (jsToLower m1) = jsTrim (jsToLower m2)) :
    generatePatternHash m1 = generatePatternHash m2 ∧
    (findOrCreatePattern (findOrCreatePattern [] m1 c1 s1 t1).2 m2 c2 s2 t2).1.frequency = 2 ∧
    (findOrCreatePattern (findOrCreatePattern [] m1 c1 s1 t1).2 m2 c2 s2 t2).1.category = c1 ∧
    (findOrCreatePattern (findOrCreatePattern [] m1 c1 s1 t1).2 m2 c2 s2 t2).2.length = 1 := by
  have hh : generatePatternHash m1 = generatePatternHash m2 := hnorm
  refine ⟨hh, ?_⟩
  rw [findOrCreatePattern_miss [] m1 c1 s1 t1 rfl]
  have hph : (newPattern m1 c1 s1 t1).pattern_hash = generatePatternHash m2 := hh
  have hfind : findByHash (generatePatternHash m2) ([] ++ [newPattern m1 c1 s1 t1]) =
      some (newPattern m1 c1 s1 t1) := by
    rw [List.nil_append, findByHash, if_pos hph]
  rw [findOrCreatePattern_hit _ m2 c2 s2 t2 _ hfind]
  refine ⟨rfl, rfl, ?_⟩
  simp [saveUpdated, incrementFrequency]

/-- C9 witness: the theorem at two concrete messages differing only in case
and surrounding whitespace, upserted under different categories. -/
theorem pattern_hash_ignores_category_case_whitespace_witness :
    generatePatternHash "  URGENT Payment " = generatePatternHash "urgent payment" ∧
    (findOrCreatePattern (findOrCreatePattern [] "  URGENT Payment " "urgent_payment" "high" 5).2
        "urgent payment" "other" "low" 6).1.frequency = 2 ∧
    (findOrCreatePattern (findOrCreatePattern [] "  URGENT Payment " "urgent_payment" "high" 5).2
        "urgent payment" "other" "low" 6).1.category = "urgent_payment" ∧
    (findOrCreatePattern (findOrCreatePattern [] "  URGENT Payment " "urgent_payment" "high" 5).2
        "urgent payment" "other" "low" 6).2.length = 1 :=
  pattern_hash_ignores_category_case_whitespace
    "  URGENT Payment " "urgent payment" "urgent_payment" "other" "high" "low" 5 6
    (by decide)

/-- Writing a key then looking it up yields the written entry. -/
theorem lookupKey_writeKey {α : Type} (k : String) (e : CacheEntry α)
    (l : List (String × CacheEntry α)) :
    lookupKey k (writeKey k e l) = some e := by
  induction l with
  | nil => simp [writeKey, lookupKey]
  | cons he rest ih =>
      obtain ⟨k', e'⟩ := he
      by_cases hk : k' = k
      · simp [writeKey, lookupKey, hk]
      · simp [writeKey, lookupKey, hk, ih]

/-- C1 counterexample: with the AI call succeeding and the history save
rejecting, the controller's shared `catch` passes the error to `next` and
the successful AI result is not returned — refuting the claim that a
failure in any bookkeeping step leaves the AI result returned. -/
theorem ai_success_not_returned_on_save_failure :
    saveFailEnv.aiResult = .ok sampleData ∧
    (ctrlRewriteMessage saveFailEnv (.store []) "msg" "US" false 0).1 =
      .errorPassed "history write failed" ∧
    (ctrlRewriteMessage saveFailEnv (.store []) "msg" "US" false 0).1 ≠
      .success sampleData false :=
  ⟨rfl, rfl, by decide⟩

/-- C1 (amended): when the AI call succeeds, a failure of the cache write
does not prevent the AI result from being returned (`cacheService.set`
catches internally and merely reports `false` — the theorem holds for every
backing, including a failing one); but the AI result reaches the caller only
when the history save, the usage increment and the pattern upsert all
succeed, since a rejection in any of them is passed to `next` instead. -/
theorem ai_result_returned_when_bookkeeping_succeeds
    (env : RewriteEnv) (b : Backing AnalysisData) (message region : String)
    (hasUser : Bool) (now : Nat) (d : AnalysisData)
    (hai : env.aiResult = .ok d) (hsave : env.saveResult = .ok ())
    (hinc : env.incrementResult = .ok ()) (hpat : env.patternResult = .ok ())
    (hmiss : (cacheGet b (getRewriteKey message region) now).1 = none) :
    (ctrlRewriteMessage env b message region hasUser now).1 = .success d false := by
  rcases hcg : cacheGet b (getRewriteKey message region) now with ⟨o, b1⟩
  rw [hcg] at hmiss
  simp only at hmiss
  subst hmiss
  simp only [ctrlRewriteMessage]
  rw [hcg]
  simp only [hai, hsave, hpat]
  cases hasUser <;> simp [hinc]

/-- C1 witness: the amended theorem on a failing cache backing (so the cache
write fails) with every persistence outcome successful. -/
theorem ai_result_returned_when_bookkeeping_succeeds_witness :
    (ctrlRewriteMessage allOkEnv .failing "hello" "US" false 0).1 =
      .success sampleData false :=
  ai_result_returned_when_bookkeeping_succeeds allOkEnv .failing "hello" "US"
    false 0 sampleData rfl rfl rfl rfl rfl

/-- C2: when a first request for a message/region pair misses the cache,
succeeds end to end and stores its result, a second request within the
300-second TTL responds with `cached = true` and the identical analysis
result, without invoking the AI Gateway — for authenticated or anonymous
requests alike (with the usage-counter bookkeeping succeeding). -/
theorem second_request_within_ttl_returns_cached
    (env1 env2 : RewriteEnv) (entries : List (String × CacheEntry AnalysisData))
    (message region : String) (d : AnalysisData) (hasUser1 hasUser2 : Bool)
    (t1 t2 : Nat)
    (hai : env1.aiResult = .ok d) (hsave : env1.saveResult = .ok ())
    (hinc1 : env1.incrementResult = .ok ()) (hpat : env1.patternResult = .ok ())
    (hinc2 : env2.incrementResult = .ok ())
    (hmiss : lookupKey (getRewriteKey message region) entries = none)
    (httl : ¬ t2 - t1 > 300 * 1000) :
    (ctrlRewriteMessage env1 (.store entries) message region hasUser1 t1).1 =
      .success d false ∧
    (ctrlRewriteMessage env2
        (ctrlRewriteMessage env1 (.store entries) message region hasUser1 t1).2.1
        message region hasUser2 t2).1 = .success d true ∧
    (ctrlRewriteMessage env2
        (ctrlRewriteMessage env1 (.store entries) message region hasUser1 t1).2.1
        message region hasUser2 t2).2.2 = false := by
  have hget1 : cacheGet (Backing.store entries) (getRewriteKey message region) t1 =
      (none, .store entries) := by
    simp only [cacheGet, hmiss]
  have h1 : ctrlRewriteMessage env1 (.store entries) message region hasUser1 t1 =
      (.success d false,
       .store (writeKey (getRewriteKey message region) ⟨d, t1, 300⟩ entries),
       true) := by
    simp only [ctrlRewriteMessage]
    rw [hget1]
    simp only [hai, hsave, hpat, cacheSet]
    cases hasUser1
    · rfl
    · simp only [hinc1]
      rfl
  have hget2 : cacheGet
      (.store (writeKey (getRewriteKey message region) ⟨d, t1, 300⟩ entries))
      (getRewriteKey message region) t2 =
      (some d,
       .store (writeKey (getRewriteKey message region) ⟨d, t1, 300⟩ entries)) := by
    have hlk := lookupKey_writeKey (getRewriteKey message region)
      (⟨d, t1, 300⟩ : CacheEntry AnalysisData) entries
    simp only [cacheGet, hlk]
    rw [if_neg httl]
  have h2 : ctrlRewriteMessage env2
      (.store (writeKey (getRewriteKey message region) ⟨d, t1, 300⟩ entries))
      message region hasUser2 t2 =
      (.success d true,
       .store (writeKey (getRewriteKey message region) ⟨d, t1, 300⟩ entries),
       false) := by
    simp only [ctrlRewriteMessage]
    rw [hget2]
    cases hasUser2
    · rfl
    · simp only [hinc2]
      rfl
  have hb1 : (ctrlRewriteMessage env1 (.store entries) message region hasUser1 t1).2.1 =
      .store (writeKey (getRewriteKey message region) ⟨d, t1, 300⟩ entries) := by
    rw [h1]
  refine ⟨by rw [h1], by rw [hb1, h2], by rw [hb1, h2]⟩

/-- C2 witness: the theorem on an initially empty store, with the second
request arriving exactly at the edge of the TTL window. -/
theorem second_request_within_ttl_returns_cached_witness :
    (ctrlRewriteMessage allOkEnv (.store []) "hi" "IN" true 0).1 =
      .success sampleData false ∧
    (ctrlRewriteMessage allOkEnv
        (ctrlRewriteMessage allOkEnv (.store []) "hi" "IN" true 0).2.1
        "hi" "IN" false 300000).1 = .success sampleData true ∧
    (ctrlRewriteMessage allOkEnv
        (ctrlRewriteMessage allOkEnv (.store []) "hi" "IN" true 0).2.1
        "hi" "IN" false 300000).2.2 = false :=
  second_request_within_ttl_returns_cached allOkEnv allOkEnv [] "hi" "IN"
    sampleData true false 0 300000 rfl rfl rfl rfl rfl rfl (by decide)

end Rewrite
